import Mathlib

/-!
Verification of the region/time-windowed environmental aggregation read path
of the AQLLM dashboards (src/app.py, src/application.py, src/streamlit_app.py).

The embedding conventions:
* SQL / pandas numeric values are modelled as `ℚ`; SQL `NULL` (absent field)
  as `Option.none` on the stored text, timestamps as `Int` measured in days.
* The T-SQL expression `AVG(CAST(REPLACE(REPLACE(col, ' unit', ''), 'unit', '') as FLOAT))`
  from `AirQualityQueries.get_air_quality_summary` (src/app.py lines 54-68) is
  modelled by `avgColumn`: `REPLACE` removes every occurrence of the pattern,
  `CAST(text AS FLOAT)` parses a float literal and RAISES a conversion error on
  non-numeric text (T-SQL `CAST`, unlike `TRY_CAST`, fails the whole query),
  `AVG` skips `NULL` values and returns `NULL` when no non-`NULL` value exists.
* Python's `random.uniform(a, b)` is modelled as `a + (b - a) * u` where `u` is
  read from an explicit draw stream `d : ℕ → ℚ`; `random.randint(a, b)` as
  `a + n % (b - a + 1)` with `n` read from a stream `rd : ℕ → ℕ`.  Each
  generated row advances the stream index by 7 (six uniform draws and one
  randint draw).  `datetime.now()` is passed in explicitly (clock values and
  their formatted strings are parameters).
* Fallible Python code (dict lookup `self.base_data[reg]`, a call to an
  undefined attribute) returns `Except String _`.
-/

/-- The fixed region list `EGYPT_REGIONS`, identical in all three source files. -/
def EGYPT_REGIONS : List String :=
  ["Red Sea", "Delta", "Greater Cairo", "Sinai", "New Valley",
   "Upper Egypt", "North Coast", "Canal Cities"]

/-! ### T-SQL string REPLACE and CAST(... AS FLOAT) -/

/-- One fuel step of `removeAll`: scans left to right and drops every
occurrence of the pattern, like T-SQL `REPLACE(s, pat, '')`. -/
def removeAllAux (pat : List Char) : Nat → List Char → List Char
  | 0, s => s
  | _ + 1, [] => []
  | fuel + 1, c :: rest =>
    if pat ≠ [] ∧ pat.isPrefixOf (c :: rest) then
      removeAllAux pat fuel ((c :: rest).drop pat.length)
    else
      c :: removeAllAux pat fuel rest

/-- T-SQL `REPLACE(s, pat, '')`: remove every occurrence of `pat` from `s`. -/
def removeAllStr (pat s : String) : String :=
  ⟨removeAllAux pat.data s.data.length s.data⟩

/-- Digit run of a character list: the leading digits and the rest. -/
def spanDigits (l : List Char) : List Char × List Char :=
  (l.takeWhile Char.isDigit, l.dropWhile Char.isDigit)

/-- Numeric value of a digit list (most significant first). -/
def digitsToNat (l : List Char) : Nat :=
  l.foldl (fun acc c => 10 * acc + (c.toNat - '0'.toNat)) 0

/-- Exponent part of a T-SQL float literal, applied to an already parsed
mantissa.  Fails if no digits follow or trailing characters remain. -/
def parseExpPart (sgn mant : ℚ) (l : List Char) : Option ℚ :=
  let (esgn, l1) : ℤ × List Char :=
    match l with
    | '+' :: rest => (1, rest)
    | '-' :: rest => (-1, rest)
    | _ => (1, l)
  let (ed, l2) := spanDigits l1
  if ed = [] ∨ l2 ≠ [] then none
  else some (sgn * mant * (10 : ℚ) ^ (esgn * (digitsToNat ed : ℤ)))

/-- Model of T-SQL `CAST(s AS FLOAT)` on a varchar value: trims spaces, maps
the empty string to `0` (a T-SQL quirk), otherwise parses
`[+|-] digits [. digits] [e [+|-] digits]`; `none` models the conversion
error T-SQL raises on any other text. -/
def parseFloatQ (s : String) : Option ℚ :=
  let l := ((s.data.dropWhile (· = ' ')).reverse.dropWhile (· = ' ')).reverse
  if l = [] then some 0
  else
    let (sgn, l1) : ℚ × List Char :=
      match l with
      | '+' :: rest => (1, rest)
      | '-' :: rest => (-1, rest)
      | _ => (1, l)
    let (ip, l2) := spanDigits l1
    let (fp, l3) :=
      match l2 with
      | '.' :: rest => spanDigits rest
      | _ => (([] : List Char), l2)
    if ip = [] ∧ fp = [] then none
    else
      let mant : ℚ := (digitsToNat ip : ℚ) + (digitsToNat fp : ℚ) / (10 : ℚ) ^ fp.length
      match l3 with
      | [] => some (sgn * mant)
      | 'e' :: rest => parseExpPart sgn mant rest
      | 'E' :: rest => parseExpPart sgn mant rest
      | _ => none

/-! ### The reading store and the aggregation query (src/app.py) -/

/-- One row of `dbo.IoT_AirQuality`: the six measurement columns are
varchar-with-unit or `NULL` (`none`); the timestamp is in days. -/
structure Row where
  region : String
  pm25 : Option String
  pm10 : Option String
  no2 : Option String
  co2 : Option String
  temperature : Option String
  humidity : Option String
  timestamp : Int
deriving DecidableEq, Repr

/-- One result row of `get_air_quality_summary`: `none` averages model SQL
`NULL` (no non-`NULL` contributing value). -/
structure SummaryRow where
  region : String
  avgPM25 : Option ℚ
  avgPM10 : Option ℚ
  avgNO2 : Option ℚ
  avgCO2 : Option ℚ
  avgTemperature : Option ℚ
  avgHumidity : Option ℚ
  count : Nat
  periodStart : Option Int
  periodEnd : Option Int
deriving DecidableEq, Repr

/-- `REPLACE(REPLACE(col, ' unit', ''), 'unit', '')` from the query text. -/
def stripUnit (unit s : String) : String :=
  removeAllStr unit (removeAllStr (" " ++ unit) s)

/-- Unit stripping followed by `CAST(... AS FLOAT)`. -/
def parseMeasurement (unit s : String) : Option ℚ :=
  parseFloatQ (stripUnit unit s)

/-- `AVG(CAST(REPLACE(...) as FLOAT))` over one column of one group:
`NULL`s are skipped by `AVG`; a non-`NULL` value that does not parse makes
T-SQL `CAST` raise, failing the whole query. -/
def avgColumn (unit : String) (vals : List (Option String)) : Except String (Option ℚ) :=
  let parsed := (vals.filterMap id).map (parseMeasurement unit)
  if parsed.any Option.isNone then
    .error "Error converting data type varchar to float."
  else
    let qs := parsed.filterMap id
    if qs.length = 0 then .ok none
    else .ok (some (qs.sum / (qs.length : ℚ)))

/-- `MIN(timestamp)` over a group (SQL `MIN` is `NULL` on an empty set). -/
def listMinI (l : List Int) : Option Int :=
  l.foldl (fun acc x => some (match acc with | none => x | some m => min m x)) none

/-- `MAX(timestamp)` over a group. -/
def listMaxI (l : List Int) : Option Int :=
  l.foldl (fun acc x => some (match acc with | none => x | some m => max m x)) none

/-- The region filter of `get_air_quality_summary`: the `AND region = '...'`
clause is added only `if region and region != "All Regions"` — Python
truthiness makes `None` and the empty string behave like "All Regions". -/
def effFilter : Option String → Option String
  | none => none
  | some s => if s = "" ∨ s = "All Regions" then none else some s

/-- The `WHERE` clause: trailing window
`CAST(timestamp as DATETIME) >= DATEADD(day, -days, GETDATE())` plus the
optional region equality. -/
def matchesRow (filter : Option String) (now : Int) (days : Nat) (r : Row) : Bool :=
  (now - (days : Int) ≤ r.timestamp) &&
    (match effFilter filter with
     | none => true
     | some name => r.region = name)

/-- The rows selected by the `WHERE` clause. -/
def filteredRows (rows : List Row) (filter : Option String) (days : Nat) (now : Int) :
    List Row :=
  rows.filter (matchesRow filter now days)

/-- `GROUP BY region ORDER BY region`: the distinct regions of the selected
rows in ascending lexicographic order. -/
def groupRegions (rows : List Row) : List String :=
  List.insertionSort (· ≤ ·) (rows.map Row.region).dedup

/-- The `SELECT` list evaluated on one region group. -/
def summarize (rows : List Row) (reg : String) : Except String SummaryRow :=
  let g := rows.filter (fun r => r.region = reg)
  match avgColumn "µg/m³" (g.map Row.pm25), avgColumn "µg/m³" (g.map Row.pm10),
      avgColumn "µg/m³" (g.map Row.no2), avgColumn "ppm" (g.map Row.co2),
      avgColumn "°C" (g.map Row.temperature), avgColumn "%" (g.map Row.humidity) with
  | .ok a25, .ok a10, .ok an, .ok ac, .ok at', .ok ah =>
    .ok { region := reg, avgPM25 := a25, avgPM10 := a10, avgNO2 := an,
          avgCO2 := ac, avgTemperature := at', avgHumidity := ah,
          count := g.length,
          periodStart := listMinI (g.map Row.timestamp),
          periodEnd := listMaxI (g.map Row.timestamp) }
  | .error e, _, _, _, _, _ => .error e
  | _, .error e, _, _, _, _ => .error e
  | _, _, .error e, _, _, _ => .error e
  | _, _, _, .error e, _, _ => .error e
  | _, _, _, _, .error e, _ => .error e
  | _, _, _, _, _, .error e => .error e

/-- Evaluate the `SELECT` list on every group, failing on the first
conversion error, as the SQL engine does. -/
def summarizeAll (rows : List Row) : List String → Except String (List SummaryRow)
  | [] => .ok []
  | reg :: rest =>
    match summarize rows reg, summarizeAll rows rest with
    | .ok s, .ok tail => .ok (s :: tail)
    | .error e, _ => .error e
    | _, .error e => .error e

/-- `AirQualityQueries.get_air_quality_summary` (src/app.py lines 52-75):
window filter, optional region filter, `GROUP BY region ORDER BY region`,
per-group averages with unit stripping and float casts. -/
def get_air_quality_summary (rows : List Row) (region : Option String) (days : Nat)
    (now : Int) : Except String (List SummaryRow) :=
  let f := filteredRows rows region days now
  summarizeAll f (groupRegions f)

/-! ### Threshold classification (src/app.py lines 202-204, src/application.py
lines 155-156, src/streamlit_app.py lines 180-188 and 346) -/

/-- The three-way health classification used by every dashboard variant. -/
inductive Band
  | good
  | moderate
  | poor
deriving DecidableEq, Repr

/-- `"🟢 Good" if x <= 12 else "🟡 Moderate" if x <= 35 else "🔴 Poor"`. -/
def pm25Band (x : ℚ) : Band :=
  if x ≤ 12 then .good else if x ≤ 35 then .moderate else .poor

/-- `"🟢 Good" if x <= 50 else "🟡 Moderate" if x <= 100 else "🔴 Poor"`. -/
def pm10Band (x : ℚ) : Band :=
  if x ≤ 50 then .good else if x ≤ 100 then .moderate else .poor

/-- Status label attached to the band in the report text. -/
def bandLabel : Band → String
  | .good => "🟢 Good"
  | .moderate => "🟡 Moderate"
  | .poor => "🔴 Poor"

/-- Band of a pandas value that may be `NaN` (SQL `NULL` average): both
`NaN <= 12` and `NaN <= 35` are false in Python, so `NaN` lands on `Poor`. -/
def pm25BandOpt : Option ℚ → Band
  | none => .poor
  | some x => pm25Band x

/-- Band of a possibly-`NaN` PM10 average (`NaN` lands on `Poor`). -/
def pm10BandOpt : Option ℚ → Band
  | none => .poor
  | some x => pm10Band x

/-! ### The report text of `AirQualityAnalyzer.prepare_data_context`
(src/app.py lines 188-222) -/

/-- Python `"{:.1f}".format`, abstracted to round-half-up at one decimal
(the claims never inspect these digits). `NaN` prints as `nan`. -/
def fmt1 (q : ℚ) : String :=
  let n : Int := ⌊q * 10 + 1 / 2⌋
  toString (n / 10) ++ "." ++ toString (n % 10)

/-- Formatting of a possibly-`NaN` average. -/
def fmt1Opt : Option ℚ → String
  | none => "nan"
  | some q => fmt1 q

/-- `{row['Readings_Count']:,}` — thousands grouping abstracted away. -/
def fmtCount (n : Nat) : String := toString n

/-- Rendering of a `Period_Start`/`Period_End` timestamp (`NaT` when the
group is empty, which cannot happen for an emitted group). -/
def fmtTs : Option Int → String
  | none => "NaT"
  | some t => toString t

/-- The context header built before the empty check (src/app.py lines
193-196); `nowStr` is the `datetime.now().strftime(...)` result. -/
def headerCtx (days : Nat) (nowStr : String) : String :=
  "## 🌍 Egypt Air Quality - LIVE DATABASE DATA\n\n" ++
  "**📊 Data Source**: Azure Synapse SQL Pool\n" ++
  "**📅 Analysis Period**: Last " ++ toString days ++ " days\n" ++
  "**🕒 Last Query**: " ++ nowStr ++ "\n\n"

/-- The marker appended when `summary_df.empty` (src/app.py line 199). -/
def noDataMarker : String :=
  "⚠️ *No data found for the specified criteria*\n\n"

/-- One per-region block of the report (src/app.py lines 202-217). -/
def regionBlock (row : SummaryRow) : String :=
  "### 📍 " ++ row.region ++ "\n" ++
  "**Environmental Metrics:**\n" ++
  "• 🌡️ **Temperature**: " ++ fmt1Opt row.avgTemperature ++ " °C\n" ++
  "• 💧 **Humidity**: " ++ fmt1Opt row.avgHumidity ++ " %\n" ++
  "• 🌫️ **PM2.5**: " ++ fmt1Opt row.avgPM25 ++ " μg/m³ (" ++
    bandLabel (pm25BandOpt row.avgPM25) ++ ")\n" ++
  "• 🏭 **PM10**: " ++ fmt1Opt row.avgPM10 ++ " μg/m³ (" ++
    bandLabel (pm10BandOpt row.avgPM10) ++ ")\n" ++
  "• 🚗 **NO2**: " ++ fmt1Opt row.avgNO2 ++ " μg/m³\n" ++
  "• 🌿 **CO2**: " ++ fmt1Opt row.avgCO2 ++ " ppm\n" ++
  "• 📊 **Readings**: " ++ fmtCount row.count ++ "\n" ++
  "• **Period**: " ++ fmtTs row.periodStart ++ " to " ++ fmtTs row.periodEnd ++
  "\n\n"

/-- The formatting part of `prepare_data_context` applied to an already
fetched summary: header, then either the no-data marker or one block per
summary row.  The clock string is an explicit argument because the code
interpolates `datetime.now()` into the header. -/
def formatSummary (days : Nat) (nowStr : String) (summary : List SummaryRow) : String :=
  let ctx := headerCtx days nowStr
  if summary.isEmpty then ctx ++ noDataMarker
  else ctx ++ String.join (summary.map regionBlock)

/-- The `except` branch of `prepare_data_context` (src/app.py line 222). -/
def dbErrorContext (e : String) : String :=
  "## ❌ Database Connection Error\n\nUnable to connect to Azure Synapse.\n\n**Error**: " ++
  e ++ "\n\nPlease check your database credentials."

/-- `AirQualityAnalyzer.prepare_data_context` after the store round trip:
the `try` body formats the fetched summary, the `except` branch catches any
query failure and returns the credentials message. -/
def analyzerPrepare (fetched : Except String (List SummaryRow)) (days : Nat)
    (nowStr : String) : String :=
  match fetched with
  | .error e => dbErrorContext e
  | .ok summary => formatSummary days nowStr summary

/-! ### Store configuration (src/app.py `SynapseConnection.__init__`) -/

/-- The four connection settings read from the environment. -/
structure SynapseConfig where
  server : String
  database : String
  username : String
  password : String
deriving DecidableEq, Repr

/-- `os.getenv(name, default)`. -/
def getenvD (env : String → Option String) (name default : String) : String :=
  (env name).getD default

/-- `SynapseConnection.__init__` (src/app.py lines 15-20): every missing
variable silently falls back to a placeholder default; construction never
fails. -/
def synapseConnectionInit (env : String → Option String) : SynapseConfig :=
  { server := getenvD env "SYNAPSE_SERVER" "iotsynaps.sql.azuresynapse.net",
    database := getenvD env "SYNAPSE_DATABASE" "your-database-name",
    username := getenvD env "SYNAPSE_USERNAME" "your-username",
    password := getenvD env "SYNAPSE_PASSWORD" "your-password" }

/-- `get_connection_string` (src/app.py lines 22-32). -/
def get_connection_string (c : SynapseConfig) : String :=
  "\n            Driver=\x7bODBC Driver 17 for SQL Server\x7d;\n            Server=" ++
  c.server ++ ";\n            Database=" ++ c.database ++ ";\n            Uid=" ++
  c.username ++ ";\n            Pwd=" ++ c.password ++
  ";\n            Encrypt=yes;\n            TrustServerCertificate=no;\n            Connection Timeout=30;\n        "

/-! ### Mock data generators (src/application.py `MockAirQualityData` and
src/streamlit_app.py `EgyptAirQualityAI`) -/

/-- One entry of the `base_data` dictionary (same literal table in
src/application.py lines 18-27 and src/streamlit_app.py lines 56-65). -/
structure BaseData where
  pm25 : ℚ
  pm10 : ℚ
  no2 : ℚ
  co2 : ℚ
  temp : ℚ
  humidity : ℚ
deriving DecidableEq, Repr

/-- The `base_data` dictionary; lookup of an unknown key is `none`
(`KeyError` in Python when indexed, skipped when membership-tested). -/
def base_data (reg : String) : Option BaseData :=
  if reg = "Red Sea" then some ⟨9, 20, 7, 300, 28, 37⟩
  else if reg = "Delta" then some ⟨27, 60, 22, 340, 25.5, 60⟩
  else if reg = "Greater Cairo" then some ⟨56, 110, 63, 510, 25, 40⟩
  else if reg = "Sinai" then some ⟨11, 24, 5, 280, 30, 31⟩
  else if reg = "New Valley" then some ⟨24, 52, 9, 340, 33, 21⟩
  else if reg = "Upper Egypt" then some ⟨23, 49, 13, 315, 31, 25⟩
  else if reg = "North Coast" then some ⟨8, 19, 5, 300, 25, 69⟩
  else if reg = "Canal Cities" then some ⟨17, 40, 21, 355, 27, 51⟩
  else none

/-- `[region] if region and region != "All Regions" else self.regions`:
Python truthiness sends `None` and `""` to the full region list. -/
def regionsToShow (region : Option String) (all : List String) : List String :=
  match region with
  | none => all
  | some s => if s ≠ "" ∧ s ≠ "All Regions" then [s] else all

/-- `random.uniform(a, b)` applied to a raw draw `u` (in `[0, 1]` for the
real generator): `a + (b - a) * u`. -/
def uniformDraw (a b u : ℚ) : ℚ := a + (b - a) * u

/-- `random.randint(a, b)` applied to a raw draw `n`. -/
def randintDraw (a b n : Nat) : Nat := a + n % (b - a + 1)

/-- `variation` of `generate_mock_summary` (src/application.py lines 36-37):
`0.15 * (0.5 + 0.5 * abs(time_factor - 0.5) / 0.5)` with
`time_factor = hour / 24.0 + minute / 1440.0`. -/
def mockVariation (hour minute : Nat) : ℚ :=
  let tf : ℚ := (hour : ℚ) / 24 + (minute : ℚ) / 1440
  0.15 * (0.5 + 0.5 * |tf - 0.5| / 0.5)

/-- One mock summary row (src/application.py lines 39-50). -/
structure MockRow where
  region : String
  pm25 : ℚ
  pm10 : ℚ
  no2 : ℚ
  co2 : ℚ
  temperature : ℚ
  humidity : ℚ
  count : Nat
  periodStart : Int
  periodEnd : Int
deriving DecidableEq, Repr

/-- The dictionary appended for one region: six clamped random variations
around the base values, a random reading count, and the nominal window
bounds.  Uniform draws are read at stream indices `k..k+5`, the randint
draw at `k`. -/
def mkMockRow (b : BaseData) (reg : String) (v : ℚ) (d : ℕ → ℚ) (rd : ℕ → ℕ)
    (k : ℕ) (now : Int) (days : Nat) : MockRow :=
  { region := reg,
    pm25 := max 1 (b.pm25 * (1 + uniformDraw (-v) v (d k))),
    pm10 := max 1 (b.pm10 * (1 + uniformDraw (-v) v (d (k + 1)))),
    no2 := max 1 (b.no2 * (1 + uniformDraw (-v) v (d (k + 2)))),
    co2 := max 250 (b.co2 * (1 + uniformDraw (-(v / 3)) (v / 3) (d (k + 3)))),
    temperature := b.temp * (1 + uniformDraw (-0.08) 0.08 (d (k + 4))),
    humidity := max 10 (min 95 (b.humidity * (1 + uniformDraw (-0.15) 0.15 (d (k + 5))))),
    count := randintDraw 45 180 (rd k),
    periodStart := now - (days : Int),
    periodEnd := now }

/-- The row loop of `generate_mock_summary`: `self.base_data[reg]` raises
`KeyError` on an unknown region, aborting the call; each emitted row
advances the draw index by 7.  Returns the result together with the final
draw index (the RNG state after the call). -/
def mockRowsAux (d : ℕ → ℚ) (rd : ℕ → ℕ) (v : ℚ) (now : Int) (days : Nat) :
    ℕ → List String → Except String (List MockRow) × ℕ
  | k, [] => (.ok [], k)
  | k, reg :: rest =>
    match base_data reg with
    | none => (.error ("KeyError: " ++ reg), k)
    | some b =>
      match mockRowsAux d rd v now days (k + 7) rest with
      | (.ok tail, k') => (.ok (mkMockRow b reg v d rd k now days :: tail), k')
      | (.error e, k') => (.error e, k')

/-- `MockAirQualityData.generate_mock_summary` (src/application.py lines
29-52).  `hour`/`minute` are the `datetime.now()` components, `now` the
current time in days, `k` the RNG state (draw index) at call time. -/
def generate_mock_summary (d : ℕ → ℚ) (rd : ℕ → ℕ) (hour minute : Nat)
    (region : Option String) (days : Nat) (now : Int) (k : ℕ) :
    Except String (List MockRow) × ℕ :=
  mockRowsAux d rd (mockVariation hour minute) now days k
    (regionsToShow region EGYPT_REGIONS)

/-- One row of the streamlit data frame (src/streamlit_app.py lines 91-101). -/
structure StRow where
  region : String
  pm25 : ℚ
  pm10 : ℚ
  no2 : ℚ
  co2 : ℚ
  temperature : ℚ
  humidity : ℚ
  readings : Nat
  lastUpdate : String
deriving DecidableEq, Repr

/-- One streamlit data row (`day_variation` in place of `variation`,
`randint(80, 200)` readings, a formatted `Last_Update` string). -/
def mkStRow (b : BaseData) (reg : String) (v : ℚ) (d : ℕ → ℚ) (rd : ℕ → ℕ)
    (k : ℕ) (lastUpdate : String) : StRow :=
  { region := reg,
    pm25 := max 1 (b.pm25 * (1 + uniformDraw (-v) v (d k))),
    pm10 := max 1 (b.pm10 * (1 + uniformDraw (-v) v (d (k + 1)))),
    no2 := max 1 (b.no2 * (1 + uniformDraw (-v) v (d (k + 2)))),
    co2 := max 250 (b.co2 * (1 + uniformDraw (-(v / 3)) (v / 3) (d (k + 3)))),
    temperature := b.temp * (1 + uniformDraw (-0.08) 0.08 (d (k + 4))),
    humidity := max 10 (min 95 (b.humidity * (1 + uniformDraw (-0.15) 0.15 (d (k + 5))))),
    readings := randintDraw 80 200 (rd k),
    lastUpdate := lastUpdate }

/-- The row loop of `get_environmental_data`: `if reg in self.base_data`
silently skips unknown regions (no draws consumed); known regions consume
7 draws. -/
def stRowsAux (d : ℕ → ℚ) (rd : ℕ → ℕ) (v : ℚ) (lastUpdate : String) :
    ℕ → List String → List StRow
  | _, [] => []
  | k, reg :: rest =>
    match base_data reg with
    | none => stRowsAux d rd v lastUpdate k rest
    | some b => mkStRow b reg v d rd k lastUpdate :: stRowsAux d rd v lastUpdate (k + 7) rest

/-- `EgyptAirQualityAI.get_environmental_data` (src/streamlit_app.py lines
77-103): `day_variation = 0.1 + 0.05 * (hour / 24)`; unknown regions are
skipped, not an error.  `days` is accepted but unused by the values, as in
the source. -/
def get_environmental_data (d : ℕ → ℚ) (rd : ℕ → ℕ) (hour : Nat)
    (lastUpdate : String) (region : Option String) (days : Nat) : List StRow :=
  let dayVariation : ℚ := 0.1 + 0.05 * ((hour : ℚ) / 24)
  let _ := days
  stRowsAux d rd dayVariation lastUpdate 0 (regionsToShow region EGYPT_REGIONS)

/-! ### Keyword-dispatched responder (src/app.py `SmartAIResponder`) -/

/-- Python `word in prompt`: substring membership. -/
def substrB (pat s : String) : Bool := decide (pat.data <:+: s.data)

/-- `any(word in prompt_lower for word in words)`. -/
def containsAny (words : List String) (s : String) : Bool :=
  words.any (fun w => substrB w s)

/-- Temperature keywords of src/app.py line 121 (no `'warm'` here, unlike
src/application.py). -/
def appTempWords : List String := ["temperature", "temp", "hot", "cold"]

/-- Comparison keywords of src/app.py line 123. -/
def appCompareWords : List String := ["compare", "comparison", "versus", "vs"]

/-- Health keywords of src/app.py line 125. -/
def appHealthWords : List String := ["health", "risk", "safe", "danger"]

/-- Region keywords of src/app.py line 127. -/
def appRegionWords : List String := ["region", "area", "location"]

/-- `_generate_temperature_response` (src/app.py lines 132-142). -/
def appTemperatureResponse (ctx p : String) : String :=
  "🌡️ **Temperature Analysis - REAL DATA**\n\n" ++ ctx ++
  "\n\n**Insights from Actual Measurements:**\n- Analysis based on real sensor data from Azure Synapse\n- Temperature patterns reflect actual environmental conditions\n- Regional variations show true geographical influences\n\n*Based on your question: \"" ++
  p ++ "\"*"

/-- `_generate_comparison_response` (src/app.py lines 144-154). -/
def appComparisonResponse (ctx p : String) : String :=
  "📊 **Regional Comparison - REAL DATA**\n\n" ++ ctx ++
  "\n\n**Data-Driven Analysis:**\n- Direct comparison of actual environmental measurements\n- Real sensor data enables accurate regional assessment\n- Evidence-based environmental intelligence\n\n*Comparison based on: \"" ++
  p ++ "\"*"

/-- `_generate_health_response` (src/app.py lines 156-170). -/
def appHealthResponse (ctx p : String) : String :=
  "🏥 **Health Impact Assessment - REAL DATA**\n\n" ++ ctx ++
  "\n\n**WHO Guidelines Applied to Real Data:**\n- PM2.5: Good (0-12 μg/m³), Moderate (12-35 μg/m³), Poor (>35 μg/m³)\n- PM10: Good (0-50 μg/m³), Moderate (50-100 μg/m³), Poor (>100 μg/m³)\n\n**Evidence-Based Recommendations:**\n- Real-time data enables precise health guidance\n- Regional-specific recommendations based on actual conditions\n- Continuous monitoring supports timely interventions\n\n*Health analysis for: \"" ++
  p ++ "\"*"

/-- `_generate_general_response` (src/app.py lines 172-180). -/
def appGeneralResponse (ctx p : String) : String :=
  "🤖 **Environmental Intelligence - REAL DATA**\n\n" ++ ctx ++
  "\n\n**Comprehensive Analysis:**\nReal environmental data from Azure Synapse enables accurate assessment and informed decision-making across Egyptian regions.\n\n*Analysis based on: \"" ++
  p ++ "\"*"

/-- `SmartAIResponder.generate_response` (src/app.py lines 118-130).  The
`region`/`area`/`location` branch calls `self._generate_region_response`,
a method that is NOT defined anywhere in src/app.py (the sibling variants
src/application.py and src/streamlit_app.py do define it), so Python
raises `AttributeError` there; modelled as the error case. -/
def app_generate_response (ctx prompt : String) : Except String String :=
  let pl := prompt.toLower
  if containsAny appTempWords pl then .ok (appTemperatureResponse ctx prompt)
  else if containsAny appCompareWords pl then .ok (appComparisonResponse ctx prompt)
  else if containsAny appHealthWords pl then .ok (appHealthResponse ctx prompt)
  else if containsAny appRegionWords pl then
    .error "AttributeError: SmartAIResponder object has no attribute _generate_region_response"
  else .ok (appGeneralResponse ctx prompt)

/-! ### Concrete scenario data -/

/-- Decidable equality for `Except`, used to evaluate concrete runs. -/
instance {ε α : Type} [DecidableEq ε] [DecidableEq α] : DecidableEq (Except ε α) := fun a b =>
  match a, b with
  | .ok x, .ok y =>
    if h : x = y then isTrue (by rw [h]) else isFalse (by simp [h])
  | .error x, .error y =>
    if h : x = y then isTrue (by rw [h]) else isFalse (by simp [h])
  | .ok _, .error _ => isFalse (by simp)
  | .error _, .ok _ => isFalse (by simp)

/-- An all-zero uniform draw stream. -/
def d0 : ℕ → ℚ := fun _ => 0

/-- An all-zero randint draw stream. -/
def rd0 : ℕ → ℕ := fun _ => 0

/-- A draw stream whose first seven draws are `0` and the rest `1`: the
first mock call for a single region reads draws `0..6`, a second,
sequential call reads draws `7..13` and sees different values. -/
def c3d : ℕ → ℚ := fun i => if i < 7 then 0 else 1

/-- First Delta row of the spec scenario (§8): parseable PM2.5 and
temperature, one day old. -/
def c2row1 : Row :=
  { region := "Delta", pm25 := some "27.0 µg/m³", pm10 := none, no2 := none,
    co2 := none, temperature := some "25.5 °C", humidity := none, timestamp := -1 }

/-- Second Delta row of the spec scenario with the malformed `pm25 = "bad"`. -/
def c2row2bad : Row :=
  { region := "Delta", pm25 := some "bad", pm10 := none, no2 := none,
    co2 := none, temperature := some "26.0 °C", humidity := none, timestamp := -2 }

/-- Second Delta row with `pm25` absent (SQL `NULL`) instead of malformed. -/
def c2row2null : Row :=
  { region := "Delta", pm25 := none, pm10 := none, no2 := none,
    co2 := none, temperature := some "26.0 °C", humidity := none, timestamp := -2 }

/-- The summary the scenario's numbers describe: `avgPM25 = 27` from one
contributing row, `avgTemperature = 25.75` from two, `readingCount = 2`. -/
def c2expected : SummaryRow :=
  { region := "Delta", avgPM25 := some 27, avgPM10 := none, avgNO2 := none,
    avgCO2 := none, avgTemperature := some (103 / 4), avgHumidity := none,
    count := 2, periodStart := some (-2), periodEnd := some (-1) }

/-- A one-row store whose only reading is a Delta row; filtering for
"Sinai" matches nothing. -/
def c4rows : List Row := [c2row1]

/-- Two rows in regions listed out of lexicographic order ("Sinai" before
"Delta"), all measurement fields `NULL`. -/
def c6rows : List Row :=
  [{ region := "Sinai", pm25 := none, pm10 := none, no2 := none, co2 := none,
     temperature := none, humidity := none, timestamp := -1 },
   { region := "Delta", pm25 := none, pm10 := none, no2 := none, co2 := none,
     temperature := none, humidity := none, timestamp := -2 }]

/-- The aggregation output on `c6rows`: sorted ascending by region. -/
def c6out : List SummaryRow :=
  [{ region := "Delta", avgPM25 := none, avgPM10 := none, avgNO2 := none,
     avgCO2 := none, avgTemperature := none, avgHumidity := none,
     count := 1, periodStart := some (-2), periodEnd := some (-2) },
   { region := "Sinai", avgPM25 := none, avgPM10 := none, avgNO2 := none,
     avgCO2 := none, avgTemperature := none, avgHumidity := none,
     count := 1, periodStart := some (-1), periodEnd := some (-1) }]

/-- The mock row produced for "Delta" from all-zero draws at hour 0
(variation `0.15`, every uniform at its lower end). -/
def c9row : MockRow :=
  { region := "Delta", pm25 := 459 / 20, pm10 := 51, no2 := 187 / 10,
    co2 := 323, temperature := 1173 / 50, humidity := 51, count := 45,
    periodStart := -30, periodEnd := 0 }

/-- The streamlit row produced for "Delta" from all-zero draws at hour 0
(`day_variation = 0.1`). -/
def st9row : StRow :=
  { region := "Delta", pm25 := 243 / 10, pm10 := 54, no2 := 99 / 5,
    co2 := 986 / 3, temperature := 1173 / 50, humidity := 51, readings := 80,
    lastUpdate := "t" }

/-- The mock row produced for "Delta" when every uniform draw is `1`
(every variation at its upper end), as read by a second sequential call
over the stream `c3d`. -/
def c3row2 : MockRow :=
  { region := "Delta", pm25 := 621 / 20, pm10 := 69, no2 := 253 / 10,
    co2 := 357, temperature := 1377 / 50, humidity := 69, count := 45,
    periodStart := -30, periodEnd := 0 }

/-- The streamlit row produced for "Delta" when every uniform draw is `1`,
as seen by a second sequential call: the ambient RNG state after the first
call is the stream advanced past the 7 consumed draws. -/
def st3row2 : StRow :=
  { region := "Delta", pm25 := 297 / 10, pm10 := 66, no2 := 121 / 5,
    co2 := 1054 / 3, temperature := 1377 / 50, humidity := 69, readings := 80,
    lastUpdate := "t" }

/-- The row list carried by a successful result (`[]` on error); lets a
closed statement talk about the frame produced by a call. -/
def exceptRows : Except String (List MockRow) → List MockRow
  | .ok l => l
  | .error _ => []

/-! ## Shared lemmas -/

/-- `(s ++ t).data = s.data ++ t.data`. -/
theorem str_data_append (s t : String) : (s ++ t).data = s.data ++ t.data := by
  cases s; cases t; rfl

/-- A successful `summarize` labels its result row with the group's region. -/
theorem summarize_ok_region {rows : List Row} {reg : String} {s : SummaryRow}
    (h : summarize rows reg = .ok s) : s.region = reg := by
  simp only [summarize] at h
  split at h <;> simp_all
  exact h.symm ▸ rfl

/-- A successful `summarizeAll` emits exactly one row per listed region, in
order. -/
theorem summarizeAll_ok_map : ∀ (regions : List String) (rows : List Row)
    (out : List SummaryRow), summarizeAll rows regions = .ok out →
    out.map SummaryRow.region = regions := by
  intro regions
  induction regions with
  | nil =>
    intro rows out h
    simp only [summarizeAll] at h
    cases h
    rfl
  | cons reg rest ih =>
    intro rows out h
    unfold summarizeAll at h
    cases hs : summarize rows reg with
    | error e => rw [hs] at h; simp at h
    | ok s =>
      rw [hs] at h
      cases ht : summarizeAll rows rest with
      | error e => rw [ht] at h; simp at h
      | ok tail =>
        rw [ht] at h
        simp only [Except.ok.injEq] at h
        subst h
        simp [summarize_ok_region hs, ih rows tail ht]

/-- The group keys of the aggregation are sorted ascending. -/
theorem groupRegions_sorted (rows : List Row) :
    List.Sorted (· ≤ ·) (groupRegions rows) :=
  List.sorted_insertionSort _ _

/-- The group keys of the aggregation are distinct. -/
theorem groupRegions_nodup (rows : List Row) : (groupRegions rows).Nodup :=
  ((List.perm_insertionSort _ _).nodup_iff).mpr (List.nodup_dedup _)

/-- SQL `AVG` skips a `NULL` entry of the column entirely. -/
theorem avgColumn_cons_none (unit : String) (vals : List (Option String)) :
    avgColumn unit (none :: vals) = avgColumn unit vals := by
  unfold avgColumn
  rw [List.filterMap_cons_none]
  rfl

/-- Clamp bounds of one mock row: `max(1, ...)`, `max(250, ...)` and
`max(10, min(95, ...))` force the advertised ranges whatever the draws. -/
theorem mkMockRow_bounds (b : BaseData) (reg : String) (v : ℚ) (d : ℕ → ℚ)
    (rd : ℕ → ℕ) (k : ℕ) (now : Int) (days : Nat) :
    1 ≤ (mkMockRow b reg v d rd k now days).pm25 ∧
    1 ≤ (mkMockRow b reg v d rd k now days).pm10 ∧
    1 ≤ (mkMockRow b reg v d rd k now days).no2 ∧
    250 ≤ (mkMockRow b reg v d rd k now days).co2 ∧
    10 ≤ (mkMockRow b reg v d rd k now days).humidity ∧
    (mkMockRow b reg v d rd k now days).humidity ≤ 95 :=
  ⟨le_max_left _ _, le_max_left _ _, le_max_left _ _, le_max_left _ _,
   le_max_left _ _, max_le (by norm_num) (min_le_left _ _)⟩

/-- Clamp bounds of one streamlit row. -/
theorem mkStRow_bounds (b : BaseData) (reg : String) (v : ℚ) (d : ℕ → ℚ)
    (rd : ℕ → ℕ) (k : ℕ) (lastUpdate : String) :
    1 ≤ (mkStRow b reg v d rd k lastUpdate).pm25 ∧
    1 ≤ (mkStRow b reg v d rd k lastUpdate).pm10 ∧
    1 ≤ (mkStRow b reg v d rd k lastUpdate).no2 ∧
    250 ≤ (mkStRow b reg v d rd k lastUpdate).co2 ∧
    10 ≤ (mkStRow b reg v d rd k lastUpdate).humidity ∧
    (mkStRow b reg v d rd k lastUpdate).humidity ≤ 95 :=
  ⟨le_max_left _ _, le_max_left _ _, le_max_left _ _, le_max_left _ _,
   le_max_left _ _, max_le (by norm_num) (min_le_left _ _)⟩

/-- Every row emitted by the mock row loop obeys the clamp bounds. -/
theorem mockRowsAux_mem_bounds : ∀ (l : List String) (d : ℕ → ℚ) (rd : ℕ → ℕ)
    (v : ℚ) (now : Int) (days : Nat) (k : ℕ) (out : List MockRow) (k' : ℕ),
    mockRowsAux d rd v now days k l = (.ok out, k') →
    ∀ r ∈ out, 1 ≤ r.pm25 ∧ 1 ≤ r.pm10 ∧ 1 ≤ r.no2 ∧ 250 ≤ r.co2 ∧
      10 ≤ r.humidity ∧ r.humidity ≤ 95 := by
  intro l
  induction l with
  | nil =>
    intro d rd v now days k out k' h r hr
    simp only [mockRowsAux, Prod.mk.injEq, Except.ok.injEq] at h
    rw [← h.1] at hr
    cases hr
  | cons reg rest ih =>
    intro d rd v now days k out k' h r hr
    unfold mockRowsAux at h
    cases hb : base_data reg with
    | none => rw [hb] at h; simp at h
    | some b =>
      rw [hb] at h
      cases htail : mockRowsAux d rd v now days (k + 7) rest with
      | mk res k2 =>
        cases res with
        | error e => rw [htail] at h; simp at h
        | ok tail =>
          rw [htail] at h
          simp only [Prod.mk.injEq, Except.ok.injEq] at h
          rw [← h.1] at hr
          rcases List.mem_cons.mp hr with h1 | h2
          · rw [h1]; exact mkMockRow_bounds b reg v d rd k now days
          · exact ih d rd v now days (k + 7) tail k2 htail r h2

/-- Every row emitted by the streamlit row loop obeys the clamp bounds. -/
theorem stRowsAux_mem_bounds : ∀ (l : List String) (d : ℕ → ℚ) (rd : ℕ → ℕ)
    (v : ℚ) (lastU : String) (k : ℕ),
    ∀ r ∈ stRowsAux d rd v lastU k l,
      1 ≤ r.pm25 ∧ 1 ≤ r.pm10 ∧ 1 ≤ r.no2 ∧ 250 ≤ r.co2 ∧
      10 ≤ r.humidity ∧ r.humidity ≤ 95 := by
  intro l
  induction l with
  | nil => intro d rd v lastU k r hr; cases hr
  | cons reg rest ih =>
    intro d rd v lastU k r hr
    unfold stRowsAux at hr
    cases hb : base_data reg with
    | none => rw [hb] at hr; exact ih d rd v lastU k r hr
    | some b =>
      rw [hb] at hr
      rcases List.mem_cons.mp hr with h1 | h2
      · rw [h1]; exact mkStRow_bounds b reg v d rd k lastU
      · exact ih d rd v lastU (k + 7) r h2

/-- A successful mock call emits exactly one row per listed region, in the
listed order. -/
theorem mockRowsAux_ok_map : ∀ (l : List String) (d : ℕ → ℚ) (rd : ℕ → ℕ)
    (v : ℚ) (now : Int) (days : Nat) (k : ℕ) (out : List MockRow) (k' : ℕ),
    mockRowsAux d rd v now days k l = (.ok out, k') →
    out.map MockRow.region = l := by
  intro l
  induction l with
  | nil =>
    intro d rd v now days k out k' h
    simp only [mockRowsAux, Prod.mk.injEq, Except.ok.injEq] at h
    rw [← h.1]
    rfl
  | cons reg rest ih =>
    intro d rd v now days k out k' h
    unfold mockRowsAux at h
    cases hb : base_data reg with
    | none => rw [hb] at h; simp at h
    | some b =>
      rw [hb] at h
      cases htail : mockRowsAux d rd v now days (k + 7) rest with
      | mk res k2 =>
        cases res with
        | error e => rw [htail] at h; simp at h
        | ok tail =>
          rw [htail] at h
          simp only [Prod.mk.injEq, Except.ok.injEq] at h
          rw [← h.1]
          simp [mkMockRow, ih d rd v now days (k + 7) tail k2 htail]

/-- The mock row loop reads only the draws at indices
`k, ..., k + 7 * |regions| - 1`: two runs over streams that agree there
coincide (output and final RNG state). -/
theorem mockRowsAux_ext : ∀ (l : List String) (d d' : ℕ → ℚ) (rd rd' : ℕ → ℕ)
    (v : ℚ) (now : Int) (days : Nat) (k : ℕ),
    (∀ i, i < 7 * l.length → d (k + i) = d' (k + i) ∧ rd (k + i) = rd' (k + i)) →
    mockRowsAux d rd v now days k l = mockRowsAux d' rd' v now days k l := by
  intro l
  induction l with
  | nil => intro d d' rd rd' v now days k _; rfl
  | cons reg rest ih =>
    intro d d' rd rd' v now days k hagr
    cases hb : base_data reg with
    | none => simp only [mockRowsAux, hb]
    | some b =>
      have hlen : ∀ i, i < 6 → i < 7 * (reg :: rest).length := by
        intro i hi; simp only [List.length_cons]; omega
      have h0d : d k = d' k := by
        have := (hagr 0 (hlen 0 (by omega))).1; simpa using this
      have h0r : rd k = rd' k := by
        have := (hagr 0 (hlen 0 (by omega))).2; simpa using this
      have hrow : mkMockRow b reg v d rd k now days = mkMockRow b reg v d' rd' k now days := by
        unfold mkMockRow
        rw [h0d, h0r, (hagr 1 (hlen 1 (by omega))).1, (hagr 2 (hlen 2 (by omega))).1,
            (hagr 3 (hlen 3 (by omega))).1, (hagr 4 (hlen 4 (by omega))).1,
            (hagr 5 (hlen 5 (by omega))).1]
      have htail : mockRowsAux d rd v now days (k + 7) rest =
          mockRowsAux d' rd' v now days (k + 7) rest := by
        apply ih
        intro i hi
        have := hagr (7 + i) (by simp only [List.length_cons]; omega)
        rw [show k + 7 + i = k + (7 + i) from by omega]
        exact this
      cases hres : mockRowsAux d' rd' v now days (k + 7) rest with
      | mk res k2 =>
        have htail2 : mockRowsAux d rd v now days (k + 7) rest = (res, k2) :=
          htail.trans hres
        simp only [mockRowsAux, hb, htail2, hres]
        cases res with
        | ok tail =>
          show (Except.ok (mkMockRow b reg v d rd k now days :: tail), k2) =
            (Except.ok (mkMockRow b reg v d' rd' k now days :: tail), k2)
          rw [hrow]
        | error e => rfl

/-- The streamlit row loop reads only the draws at indices
`k, ..., k + 7 * |regions| - 1` (skipped regions consume none): two runs
over streams that agree there coincide. -/
theorem stRowsAux_ext : ∀ (l : List String) (d d' : ℕ → ℚ) (rd rd' : ℕ → ℕ)
    (v : ℚ) (lastU : String) (k : ℕ),
    (∀ i, i < 7 * l.length → d (k + i) = d' (k + i) ∧ rd (k + i) = rd' (k + i)) →
    stRowsAux d rd v lastU k l = stRowsAux d' rd' v lastU k l := by
  intro l
  induction l with
  | nil => intro d d' rd rd' v lastU k _; rfl
  | cons reg rest ih =>
    intro d d' rd rd' v lastU k hagr
    cases hb : base_data reg with
    | none =>
      simp only [stRowsAux, hb]
      apply ih
      intro i hi
      exact hagr i (by simp only [List.length_cons]; omega)
    | some b =>
      have hlen : ∀ i, i < 6 → i < 7 * (reg :: rest).length := by
        intro i hi; simp only [List.length_cons]; omega
      have h0d : d k = d' k := by
        have := (hagr 0 (hlen 0 (by omega))).1; simpa using this
      have h0r : rd k = rd' k := by
        have := (hagr 0 (hlen 0 (by omega))).2; simpa using this
      have hrow : mkStRow b reg v d rd k lastU = mkStRow b reg v d' rd' k lastU := by
        unfold mkStRow
        rw [h0d, h0r, (hagr 1 (hlen 1 (by omega))).1, (hagr 2 (hlen 2 (by omega))).1,
            (hagr 3 (hlen 3 (by omega))).1, (hagr 4 (hlen 4 (by omega))).1,
            (hagr 5 (hlen 5 (by omega))).1]
      have htail : stRowsAux d rd v lastU (k + 7) rest =
          stRowsAux d' rd' v lastU (k + 7) rest := by
        apply ih
        intro i hi
        have := hagr (7 + i) (by simp only [List.length_cons]; omega)
        rw [show k + 7 + i = k + (7 + i) from by omega]
        exact this
      simp only [stRowsAux, hb, hrow, htail]

/-- A region outside the fixed list has no `base_data` entry. -/
theorem base_data_eq_none {reg : String} (h : reg ∉ EGYPT_REGIONS) :
    base_data reg = none := by
  simp only [EGYPT_REGIONS, List.mem_cons, List.mem_singleton, not_or] at h
  obtain ⟨h1, h2, h3, h4, h5, h6, h7, h8⟩ := h
  simp [base_data, h1, h2, h3, h4, h5, h6, h7, h8]

/-- The caught-error report always names the credentials. -/
theorem credentials_in_dbError (e : String) :
    "credentials".data <:+: (dbErrorContext e).data := by
  refine ⟨("## ❌ Database Connection Error\n\nUnable to connect to Azure Synapse.\n\n**Error**: " ++
    e ++ "\n\nPlease check your database ").data, ".".data, ?_⟩
  unfold dbErrorContext
  simp only [str_data_append, List.append_assoc, List.append_cancel_left_eq]
  decide

/-! ## Claims -/

/-- C1: the threshold classification is a pure function of the numeric
value: PM2.5 is Good iff the average is ≤ 12, Moderate iff it is in
(12, 35], Poor iff above 35; PM10 analogously at 50 and 100; the boundary
cases 12.0 / 12.01 / 35.0 / 35.01 and 50.0 / 50.01 / 100.0 / 100.01
classify as stated. -/
theorem c1_threshold_bands :
    (∀ x : ℚ, (pm25Band x = Band.good ↔ x ≤ 12) ∧
      (pm25Band x = Band.moderate ↔ 12 < x ∧ x ≤ 35) ∧
      (pm25Band x = Band.poor ↔ 35 < x)) ∧
    (∀ x : ℚ, (pm10Band x = Band.good ↔ x ≤ 50) ∧
      (pm10Band x = Band.moderate ↔ 50 < x ∧ x ≤ 100) ∧
      (pm10Band x = Band.poor ↔ 100 < x)) ∧
    (pm25Band 12 = Band.good ∧ pm25Band 12.01 = Band.moderate ∧
      pm25Band 35 = Band.moderate ∧ pm25Band 35.01 = Band.poor) ∧
    (pm10Band 50 = Band.good ∧ pm10Band 50.01 = Band.moderate ∧
      pm10Band 100 = Band.moderate ∧ pm10Band 100.01 = Band.poor) := by
  refine ⟨fun x => ?_, fun x => ?_,
    ⟨by with_unfolding_all decide, by with_unfolding_all decide,
     by with_unfolding_all decide, by with_unfolding_all decide⟩,
    ⟨by with_unfolding_all decide, by with_unfolding_all decide,
     by with_unfolding_all decide, by with_unfolding_all decide⟩⟩
  · unfold pm25Band
    split_ifs with h1 h2 <;>
      refine ⟨⟨fun hb => ?_, fun hx => ?_⟩, ⟨fun hb => ?_, fun hx => ?_⟩,
        ⟨fun hb => ?_, fun hx => ?_⟩⟩ <;>
      first
        | rfl
        | exact h1
        | exact hb.elim
        | exact absurd hb (by decide)
        | exact ⟨not_le.mp h1, h2⟩
        | exact not_le.mp h2
        | (exfalso;
           first
             | exact h1 hx
             | exact h2 hx.2
             | linarith [hx.1]
             | linarith)
  · unfold pm10Band
    split_ifs with h1 h2 <;>
      refine ⟨⟨fun hb => ?_, fun hx => ?_⟩, ⟨fun hb => ?_, fun hx => ?_⟩,
        ⟨fun hb => ?_, fun hx => ?_⟩⟩ <;>
      first
        | rfl
        | exact h1
        | exact hb.elim
        | exact absurd hb (by decide)
        | exact ⟨not_le.mp h1, h2⟩
        | exact not_le.mp h2
        | (exfalso;
           first
             | exact h1 hx
             | exact h2 hx.2
             | linarith [hx.1]
             | linarith)

/-- C2 counterexample: on the spec's own scenario the two Delta rows with
`pm25 = "bad"` make the whole query fail with a cast conversion error —
T-SQL `CAST` raises on a malformed value instead of skipping it — so no
summary with `avgPM25 = 27`, `avgTemperature = 25.75`, `readingCount = 2`
is returned. -/
theorem c2_counterexample :
    get_air_quality_summary [c2row1, c2row2bad] none 30 0 =
      .error "Error converting data type varchar to float." ∧
    ¬ ∃ s : SummaryRow, get_air_quality_summary [c2row1, c2row2bad] none 30 0 = .ok [s] ∧
      s.avgPM25 = some 27 ∧ s.avgTemperature = some (103 / 4) ∧ s.count = 2 := by
  have h : get_air_quality_summary [c2row1, c2row2bad] none 30 0 =
      .error "Error converting data type varchar to float." := by
    with_unfolding_all decide
  refine ⟨h, ?_⟩
  rintro ⟨s, hs, -⟩
  rw [h] at hs
  exact Except.noConfusion hs

/-- C2 (amended): a measurement field that is absent (SQL `NULL`) is
excluded from that field's average only — the row's other fields still
contribute and the row still counts — while a present value that fails
numeric coercion aborts the whole query; on the scenario with the second
row's `pm25` `NULL`, the query returns one Delta summary with
`avgPM25 = 27`, `avgTemperature = 25.75`, `readingCount = 2`. -/
theorem c2_null_partial_semantics :
    (∀ (unit : String) (vals : List (Option String)),
      avgColumn unit (none :: vals) = avgColumn unit vals) ∧
    get_air_quality_summary [c2row1, c2row2null] none 30 0 = .ok [c2expected] :=
  ⟨avgColumn_cons_none, by with_unfolding_all decide⟩

set_option maxRecDepth 8000 in
/-- C3 counterexample: two sequential calls with identical arguments
(`"Delta"`, 30 days) and an unchanged base table return different rows in
both synthesized providers, because each call consumes fresh uniform
draws.  For `generate_mock_summary` the second call starts from the RNG
state (draw index 7) the first call left behind; for
`get_environmental_data`, whose row loop always starts at index 0, the
ambient RNG state left by a first one-region call is the stream advanced
past the 7 consumed draws, `fun i => c3d (i + 7)`. -/
theorem c3_counterexample :
    ((generate_mock_summary c3d rd0 0 0 (some "Delta") 30 0 0).2 = 7 ∧
     (generate_mock_summary c3d rd0 0 0 (some "Delta") 30 0 0).1 ≠
       (generate_mock_summary c3d rd0 0 0 (some "Delta") 30 0 7).1) ∧
    get_environmental_data c3d rd0 0 "t" (some "Delta") 30 ≠
      get_environmental_data (fun i => c3d (i + 7)) rd0 0 "t" (some "Delta") 30 := by
  have h1 : generate_mock_summary c3d rd0 0 0 (some "Delta") 30 0 0 = (.ok [c9row], 7) := by
    with_unfolding_all decide
  have h2 : generate_mock_summary c3d rd0 0 0 (some "Delta") 30 0 7 = (.ok [c3row2], 14) := by
    with_unfolding_all decide
  have h3 : get_environmental_data c3d rd0 0 "t" (some "Delta") 30 = [st9row] := by
    with_unfolding_all decide
  have h4 : get_environmental_data (fun i => c3d (i + 7)) rd0 0 "t" (some "Delta") 30 =
      [st3row2] := by
    with_unfolding_all decide
  refine ⟨⟨by rw [h1], ?_⟩, ?_⟩
  · rw [h1, h2]
    intro hc
    with_unfolding_all exact absurd hc (by decide)
  · rw [h3, h4]
    intro hc
    with_unfolding_all exact absurd hc (by decide)

/-- C3 (amended): both synthesized providers are deterministic functions
of their arguments, the clock reading and the RNG draws they consume —
two calls of `generate_mock_summary` that start from the same state and
read the same draw values return the same rows and the same final state,
and two calls of `get_environmental_data` that read the same draw values
return the same frame. -/
theorem c3_deterministic_given_draws :
    (∀ (d d' : ℕ → ℚ) (rd rd' : ℕ → ℕ) (hour minute : Nat)
      (region : Option String) (days : Nat) (now : Int) (k : ℕ),
      (∀ i, i < 7 * (regionsToShow region EGYPT_REGIONS).length →
        d (k + i) = d' (k + i) ∧ rd (k + i) = rd' (k + i)) →
      generate_mock_summary d rd hour minute region days now k =
        generate_mock_summary d' rd' hour minute region days now k) ∧
    (∀ (d d' : ℕ → ℚ) (rd rd' : ℕ → ℕ) (hour : Nat) (lastU : String)
      (region : Option String) (days : Nat),
      (∀ i, i < 7 * (regionsToShow region EGYPT_REGIONS).length →
        d i = d' i ∧ rd i = rd' i) →
      get_environmental_data d rd hour lastU region days =
        get_environmental_data d' rd' hour lastU region days) := by
  constructor
  · intro d d' rd rd' hour minute region days now k hagr
    unfold generate_mock_summary
    exact mockRowsAux_ext _ _ _ _ _ _ _ _ _ hagr
  · intro d d' rd rd' hour lastU region days hagr
    unfold get_environmental_data
    apply stRowsAux_ext
    intro i hi
    simpa using hagr i hi

/-- C4: a filter matching zero rows in the window yields an empty summary
(not an error) and the report keeps the header and shows the explicit
no-data marker. -/
theorem c4_empty_result_marker (rows : List Row) (filter : Option String)
    (days : Nat) (now : Int) (nowStr : String)
    (h : filteredRows rows filter days now = []) :
    get_air_quality_summary rows filter days now = .ok [] ∧
    analyzerPrepare (get_air_quality_summary rows filter days now) days nowStr =
      headerCtx days nowStr ++ noDataMarker := by
  have hq : get_air_quality_summary rows filter days now = .ok [] := by
    unfold get_air_quality_summary
    rw [h]
    rfl
  exact ⟨hq, by rw [hq]; rfl⟩

set_option maxRecDepth 8000 in
/-- C5 counterexample: the report formatter is not a function of the
summary sequence alone — the code interpolates `datetime.now()` into the
header, so the same (empty) summary formatted at two different clock
readings yields two different reports. -/
theorem c5_counterexample :
    formatSummary 30 "2024-01-01 10:00:00" [] ≠ formatSummary 30 "2024-01-01 10:00:01" [] := by
  with_unfolding_all decide

/-- C5 (amended): the report formatter is a total deterministic function
of the summary sequence, the window length and the clock string it embeds
in the header: for every summary (including the empty one) it returns a
report that starts with the fixed header, with the no-data marker as body
exactly when the summary is empty. -/
theorem c5_total_formatter :
    (∀ (days : Nat) (nowStr : String) (summary : List SummaryRow),
      ∃ body, formatSummary days nowStr summary = headerCtx days nowStr ++ body) ∧
    (∀ (days : Nat) (nowStr : String),
      formatSummary days nowStr [] = headerCtx days nowStr ++ noDataMarker) := by
  constructor
  · intro days nowStr summary
    unfold formatSummary
    split
    · exact ⟨noDataMarker, rfl⟩
    · exact ⟨String.join (summary.map regionBlock), rfl⟩
  · intro days nowStr
    rfl

/-- C6 counterexample: the mock generator's all-regions output lists its
rows in the hardcoded `EGYPT_REGIONS` declaration order, which is not
ascending — "Red Sea" precedes "Delta". -/
theorem c6_counterexample :
    (exceptRows (generate_mock_summary d0 rd0 0 0 none 30 0 0).1).map MockRow.region =
      EGYPT_REGIONS ∧
    ¬ List.Sorted (· ≤ ·) EGYPT_REGIONS := by
  constructor
  · with_unfolding_all decide
  · intro h
    rcases List.pairwise_cons.mp h with ⟨h1, -⟩
    exact absurd (h1 "Delta" (by decide)) (by with_unfolding_all decide)

/-- C6 (amended): the SQL-backed aggregation returns one row per
contributing region ordered by region name ascending (sorted and without
duplicates); the mock generator instead emits one row per requested region
in the fixed declaration order of `EGYPT_REGIONS`. -/
theorem c6_ordering :
    (∀ (rows : List Row) (filter : Option String) (days : Nat) (now : Int)
      (out : List SummaryRow),
      get_air_quality_summary rows filter days now = .ok out →
      List.Sorted (· ≤ ·) (out.map SummaryRow.region) ∧
        (out.map SummaryRow.region).Nodup) ∧
    (∀ (d : ℕ → ℚ) (rd : ℕ → ℕ) (hour minute : Nat) (region : Option String)
      (days : Nat) (now : Int) (k : ℕ) (out : List MockRow) (k' : ℕ),
      generate_mock_summary d rd hour minute region days now k = (.ok out, k') →
      out.map MockRow.region = regionsToShow region EGYPT_REGIONS) := by
  constructor
  · intro rows filter days now out h
    unfold get_air_quality_summary at h
    have hm := summarizeAll_ok_map _ _ _ h
    rw [hm]
    exact ⟨groupRegions_sorted _, groupRegions_nodup _⟩
  · intro d rd hour minute region days now k out k' h
    exact mockRowsAux_ok_map _ _ _ _ _ _ _ _ _ h

/-- C7: in src/app.py a prompt of the region category (here
"tell me about this region", matching no higher-priority keyword set) is
dispatched to `self._generate_region_response`, a method src/app.py never
defines, so the call raises `AttributeError` instead of producing the
region template the sibling variants produce. -/
theorem c7_app_region_bug :
    app_generate_response "CTX" "tell me about this region" =
      .error "AttributeError: SmartAIResponder object has no attribute _generate_region_response" := by
  with_unfolding_all decide

/-- C8: a missing environment variable silently falls back to its
placeholder default at construction (no crash), and a failing store round
trip is caught by `prepare_data_context`, which returns the connection
error report — a report that always names the database credentials. -/
theorem c8_missing_config (env : String → Option String) :
    ((env "SYNAPSE_SERVER" = none →
        (synapseConnectionInit env).server = "iotsynaps.sql.azuresynapse.net") ∧
     (env "SYNAPSE_DATABASE" = none →
        (synapseConnectionInit env).database = "your-database-name") ∧
     (env "SYNAPSE_USERNAME" = none →
        (synapseConnectionInit env).username = "your-username") ∧
     (env "SYNAPSE_PASSWORD" = none →
        (synapseConnectionInit env).password = "your-password")) ∧
    (∀ (e : String) (days : Nat) (nowStr : String),
      analyzerPrepare (.error e) days nowStr = dbErrorContext e ∧
      "credentials".data <:+: (dbErrorContext e).data) := by
  refine ⟨⟨fun h => ?_, fun h => ?_, fun h => ?_, fun h => ?_⟩,
    fun e days nowStr => ⟨rfl, credentials_in_dbError e⟩⟩ <;>
    simp [synapseConnectionInit, getenvD, h]

/-- C9: every row emitted by the synthesized summary generators satisfies
the clamp bounds — PM2.5, PM10 and NO2 averages at least 1, CO2 at least
250, humidity within [10, 95] — for every region, window, clock reading
and draw stream. -/
theorem c9_mock_bounds :
    (∀ (d : ℕ → ℚ) (rd : ℕ → ℕ) (hour minute : Nat) (region : Option String)
      (days : Nat) (now : Int) (k : ℕ) (out : List MockRow) (k' : ℕ),
      generate_mock_summary d rd hour minute region days now k = (.ok out, k') →
      ∀ r ∈ out, 1 ≤ r.pm25 ∧ 1 ≤ r.pm10 ∧ 1 ≤ r.no2 ∧ 250 ≤ r.co2 ∧
        10 ≤ r.humidity ∧ r.humidity ≤ 95) ∧
    (∀ (d : ℕ → ℚ) (rd : ℕ → ℕ) (hour : Nat) (lastU : String)
      (region : Option String) (days : Nat),
      ∀ r ∈ get_environmental_data d rd hour lastU region days,
        1 ≤ r.pm25 ∧ 1 ≤ r.pm10 ∧ 1 ≤ r.no2 ∧ 250 ≤ r.co2 ∧
        10 ≤ r.humidity ∧ r.humidity ≤ 95) := by
  constructor
  · intro d rd hour minute region days now k out k' h
    exact mockRowsAux_mem_bounds _ _ _ _ _ _ _ _ _ h
  · intro d rd hour lastU region days r hr
    exact stRowsAux_mem_bounds _ _ _ _ _ _ r hr

/-- C10 counterexample: the empty string is a region name that is neither
"All Regions" nor one of the eight known regions, yet — because Python's
`if region and region != "All Regions"` treats `""` as falsy — both
providers fall back to the full region list: the streamlit provider
returns 8 rows (not an empty frame) and the application.py generator
returns 8 rows instead of raising a lookup error. -/
theorem c10_counterexample :
    ("" ≠ "All Regions" ∧ "" ∉ EGYPT_REGIONS) ∧
    (get_environmental_data d0 rd0 0 "t" (some "") 30).length = 8 ∧
    (exceptRows (generate_mock_summary d0 rd0 0 0 (some "") 30 0 0).1).length = 8 := by
  refine ⟨⟨by decide, by decide⟩, ?_, ?_⟩ <;> with_unfolding_all decide

/-- C10 (amended): for every non-empty region name other than
"All Regions" and the eight known regions, the streamlit provider returns
an empty frame without raising (unknown regions are silently skipped),
while the application.py mock generator raises a lookup error. -/
theorem c10_unknown_region (reg : String) (h1 : reg ≠ "") (h2 : reg ≠ "All Regions")
    (h3 : reg ∉ EGYPT_REGIONS) :
    (∀ (d : ℕ → ℚ) (rd : ℕ → ℕ) (hour : Nat) (lastU : String) (days : Nat),
      get_environmental_data d rd hour lastU (some reg) days = []) ∧
    (∀ (d : ℕ → ℚ) (rd : ℕ → ℕ) (hour minute : Nat) (days : Nat) (now : Int) (k : ℕ),
      (generate_mock_summary d rd hour minute (some reg) days now k).1 =
        .error ("KeyError: " ++ reg)) := by
  have hb := base_data_eq_none h3
  have hshow : regionsToShow (some reg) EGYPT_REGIONS = [reg] := by
    simp [regionsToShow, h1, h2]
  constructor
  · intro d rd hour lastU days
    unfold get_environmental_data
    rw [hshow]
    simp [stRowsAux, hb]
  · intro d rd hour minute days now k
    unfold generate_mock_summary
    rw [hshow]
    simp [mockRowsAux, hb]

/-- Witness for C3 (amended): the all-zero stream and `c3d` agree on the
seven draws a one-region call consumes from state 0, so the two runs of
each provider coincide. -/
theorem c3_deterministic_given_draws_witness :
    ((∀ i, i < 7 * (regionsToShow (some "Delta") EGYPT_REGIONS).length →
        d0 (0 + i) = c3d (0 + i) ∧ rd0 (0 + i) = rd0 (0 + i)) ∧
     generate_mock_summary d0 rd0 0 0 (some "Delta") 30 0 0 =
       generate_mock_summary c3d rd0 0 0 (some "Delta") 30 0 0) ∧
    ((∀ i, i < 7 * (regionsToShow (some "Delta") EGYPT_REGIONS).length →
        d0 i = c3d i ∧ rd0 i = rd0 i) ∧
     get_environmental_data d0 rd0 0 "t" (some "Delta") 30 =
       get_environmental_data c3d rd0 0 "t" (some "Delta") 30) :=
  ⟨⟨by with_unfolding_all decide,
    c3_deterministic_given_draws.1 d0 c3d rd0 rd0 0 0 (some "Delta") 30 0 0
      (by with_unfolding_all decide)⟩,
   ⟨by with_unfolding_all decide,
    c3_deterministic_given_draws.2 d0 c3d rd0 rd0 0 "t" (some "Delta") 30
      (by with_unfolding_all decide)⟩⟩

/-- Witness for C4: filtering a one-Delta-row store for "Sinai" matches
nothing; the query returns the empty summary and the report carries the
no-data marker. -/
theorem c4_empty_result_marker_witness :
    filteredRows c4rows (some "Sinai") 30 0 = [] ∧
    (get_air_quality_summary c4rows (some "Sinai") 30 0 = .ok [] ∧
     analyzerPrepare (get_air_quality_summary c4rows (some "Sinai") 30 0) 30
       "2024-01-01 10:00:00" = headerCtx 30 "2024-01-01 10:00:00" ++ noDataMarker) :=
  ⟨by with_unfolding_all decide,
   c4_empty_result_marker c4rows (some "Sinai") 30 0 "2024-01-01 10:00:00"
     (by with_unfolding_all decide)⟩

set_option maxRecDepth 8000 in
/-- Witness for C6 (amended): a store listing "Sinai" before "Delta"
aggregates to rows sorted ascending without duplicates, and a concrete
one-region mock call lists exactly the requested region. -/
theorem c6_ordering_witness :
    (get_air_quality_summary c6rows none 30 0 = .ok c6out ∧
     List.Sorted (· ≤ ·) (c6out.map SummaryRow.region) ∧
       (c6out.map SummaryRow.region).Nodup) ∧
    (generate_mock_summary d0 rd0 0 0 (some "Delta") 30 0 0 = (.ok [c9row], 7) ∧
     ([c9row].map MockRow.region = regionsToShow (some "Delta") EGYPT_REGIONS)) :=
  ⟨⟨by with_unfolding_all decide,
    c6_ordering.1 c6rows none 30 0 c6out (by with_unfolding_all decide)⟩,
   ⟨by with_unfolding_all decide,
    c6_ordering.2 d0 rd0 0 0 (some "Delta") 30 0 0 [c9row] 7
      (by with_unfolding_all decide)⟩⟩

/-- Witness for C8: with every environment variable absent, construction
falls back to all four placeholder defaults, and a failing store round
trip yields the caught error report that names the credentials. -/
theorem c8_missing_config_witness :
    ((fun _ : String => (none : Option String)) "SYNAPSE_SERVER" = none ∧
     (synapseConnectionInit (fun _ => none)).server = "iotsynaps.sql.azuresynapse.net") ∧
    ((synapseConnectionInit (fun _ => none)).database = "your-database-name" ∧
     (synapseConnectionInit (fun _ => none)).username = "your-username" ∧
     (synapseConnectionInit (fun _ => none)).password = "your-password") ∧
    (analyzerPrepare (.error "Login timeout expired") 30 "2024-01-01 10:00:00" =
       dbErrorContext "Login timeout expired" ∧
     "credentials".data <:+: (dbErrorContext "Login timeout expired").data) :=
  ⟨⟨rfl, (c8_missing_config (fun _ => none)).1.1 rfl⟩,
   ⟨(c8_missing_config (fun _ => none)).1.2.1 rfl,
    (c8_missing_config (fun _ => none)).1.2.2.1 rfl,
    (c8_missing_config (fun _ => none)).1.2.2.2 rfl⟩,
   (c8_missing_config (fun _ => none)).2 "Login timeout expired" 30 "2024-01-01 10:00:00"⟩

set_option maxRecDepth 8000 in
/-- Witness for C9: the concrete Delta rows produced from all-zero draws
satisfy every clamp bound. -/
theorem c9_mock_bounds_witness :
    (generate_mock_summary d0 rd0 0 0 (some "Delta") 30 0 0 = (.ok [c9row], 7) ∧
     c9row ∈ [c9row] ∧
     (1 ≤ c9row.pm25 ∧ 1 ≤ c9row.pm10 ∧ 1 ≤ c9row.no2 ∧ 250 ≤ c9row.co2 ∧
      10 ≤ c9row.humidity ∧ c9row.humidity ≤ 95)) ∧
    (st9row ∈ get_environmental_data d0 rd0 0 "t" (some "Delta") 30 ∧
     (1 ≤ st9row.pm25 ∧ 1 ≤ st9row.pm10 ∧ 1 ≤ st9row.no2 ∧ 250 ≤ st9row.co2 ∧
      10 ≤ st9row.humidity ∧ st9row.humidity ≤ 95)) :=
  ⟨⟨by with_unfolding_all decide, by simp,
    c9_mock_bounds.1 d0 rd0 0 0 (some "Delta") 30 0 0 [c9row] 7
      (by with_unfolding_all decide) c9row (by simp)⟩,
   ⟨by with_unfolding_all decide,
    c9_mock_bounds.2 d0 rd0 0 "t" (some "Delta") 30 st9row
      (by with_unfolding_all decide)⟩⟩

/-- Witness for C10 (amended): "Luxor" is a non-empty unknown region; the
streamlit provider returns an empty frame and the mock generator raises
the lookup error. -/
theorem c10_unknown_region_witness :
    ("Luxor" ≠ "" ∧ "Luxor" ≠ "All Regions" ∧ "Luxor" ∉ EGYPT_REGIONS) ∧
    (get_environmental_data d0 rd0 0 "t" (some "Luxor") 30 = [] ∧
     (generate_mock_summary d0 rd0 0 0 (some "Luxor") 30 0 0).1 =
       .error ("KeyError: " ++ "Luxor")) :=
  ⟨⟨by decide, by decide, by decide⟩,
   (c10_unknown_region "Luxor" (by decide) (by decide) (by decide)).1 d0 rd0 0 "t" 30,
   (c10_unknown_region "Luxor" (by decide) (by decide) (by decide)).2 d0 rd0 0 0 30 0 0⟩
